import Mathlib

/-!
Verification of the restapp framework (a REST dispatch and content-negotiation
core for App Engine) against its natural-language specification.

The embedding follows the source files:
  src/restapp/context.py    (RequestContext and the resource-path resolver)
  src/restapp/_handlers.py  (RequestHandlerBase / RequestHandler / UploadRequestHandler)
  src/restapp/__init__.py   (Endpoint, renderers, URL construction)
  src/restapp/utils.py      (HTTP time parsing and formatting)

Python objects are modelled as follows: the webapp request and response become
records; the response header dict becomes a function from header names to
optional values; `datetime.datetime` is reduced to the (seconds, microseconds)
pair the source compares; exceptions become `Except` results, with a raised
domain error (`errors.RequestError`) distinguished from a non-domain Python
exception such as `TypeError`, which the error pipeline does not catch.
-/

namespace Restapp

/-- Modelled from the spec: the closed domain-error taxonomy of `errors.py`,
which the source imports (`import errors`) but which is absent from the
repository files. Per the spec each error kind carries its HTTP status code
and a body string; `NotModified` is the conditional-GET short-circuit with an
empty body. -/
inductive RequestError where
  | badRequest (msg : String)
  | unauthorized (msg : String)
  | notFound (msg : String)
  | notModified
  | internalServerError (msg : String)
  deriving DecidableEq, Repr

/-- Modelled from the spec: the HTTP status code carried by each domain-error
kind (BadRequest 400, Unauthorized 401, NotFound 404, NotModified 304,
InternalServerError 500). -/
def RequestError.code : RequestError → Nat
  | .badRequest _ => 400
  | .unauthorized _ => 401
  | .notFound _ => 404
  | .notModified => 304
  | .internalServerError _ => 500

/-- Modelled from the spec: the body text carried by a domain error; the
NotModified short-circuit produces an empty body. -/
def RequestError.body : RequestError → String
  | .badRequest m => m
  | .unauthorized m => m
  | .notFound m => m
  | .notModified => ""
  | .internalServerError m => m

/-- A failure crossing the dispatch boundary: a domain error
(`errors.RequestError`), or a non-domain Python exception (carrying its class
name and message) that `with_error_handling` does not catch and that
propagates to the hosting runtime. -/
inductive Failure where
  | domain (e : RequestError)
  | pyExc (kind : String) (msg : String)
  deriving DecidableEq, Repr

/-- A Python `datetime.datetime`, reduced to the components the source
compares: whole seconds since the epoch and the microsecond field. -/
structure DateTime where
  sec : Nat
  usec : Nat
  deriving DecidableEq, Repr

/-- Python datetime comparison `a <= b`: lexicographic on the components. -/
def DateTime.le (a b : DateTime) : Bool :=
  Nat.blt a.sec b.sec || (a.sec == b.sec && Nat.ble a.usec b.usec)

/-- Python `d.replace(microsecond = 0)`: truncation to whole seconds. -/
def DateTime.replaceMicrosecond0 (d : DateTime) : DateTime :=
  { sec := d.sec, usec := 0 }

/-- Models `utils.format_http_time` (`strftime` with `HTTP_DATE_FMT`): RFC 1123
rendering has whole-second granularity, so the rendered text is determined by
(and here rendered as) the whole-second count; the concrete date text of the
external `strftime` is irrelevant to the claims. -/
def format_http_time (d : DateTime) : String :=
  "httpdate:" ++ toString d.sec

/-- Models `utils.parse_http_time` (`strptime` with `HTTP_DATE_FMT`): an
RFC 1123 header value denotes a whole-second instant, which the model carries
directly as a second count, so parsing yields that instant with
microsecond 0. -/
def parse_http_time (s : Nat) : DateTime :=
  { sec := s, usec := 0 }

/-- The webapp response object as the source mutates it: an output buffer, a
header dict and a status code. -/
structure Response where
  out : String
  headers : String → Option String
  status : Nat

/-- Header dict assignment `response.headers[k] = v`. -/
def set_header (r : Response) (k v : String) : Response :=
  { r with headers := fun k2 => if k2 = k then some v else r.headers k2 }

/-- Output write `response.out.write(s)`. -/
def write (r : Response) (s : String) : Response :=
  { r with out := r.out ++ s }

/-- webapp `Response.clear()`: truncates the output buffer; headers and status
are kept. -/
def response_clear (r : Response) : Response :=
  { r with out := "" }

/-- webapp `RequestHandler.error(code)`: `set_status(code)` followed by
`response.clear()`. -/
def handler_error (r : Response) (code : Nat) : Response :=
  response_clear { r with status := code }

/-- webapp `RequestHandler.redirect(uri)`: status 302, the `Location` header,
and a cleared body. The hosting runtime resolves the target against the
request URL (`urljoin`); that external step is modelled as the identity on the
redirect target. -/
def redirect (r : Response) (uri : String) : Response :=
  response_clear (set_header { r with status := 302 } "Location" uri)

/-- The inbound webapp request, reduced to what the source reads: the URL
path, the GET/POST arguments (`request.get`), and the `If-Modified-Since`
header, the latter modelled by the whole-second instant its RFC 1123 text
denotes (`none` when the request does not carry the header). -/
structure Request where
  path : String
  args : String → Option String
  ifModifiedSince : Option Nat

/-- Helper for `py_split`: the accumulated characters of the current piece are
carried in reverse. -/
def py_split_aux (sep : Char) : List Char → List Char → List String
  | acc, [] => [String.mk acc.reverse]
  | acc, c :: cs =>
    if c = sep then String.mk acc.reverse :: py_split_aux sep [] cs
    else py_split_aux sep (c :: acc) cs

/-- Python `s.split(sep)` for a one-character separator: every occurrence of
the separator starts a new piece, and empty pieces are kept. -/
def py_split (s : String) (sep : Char) : List String :=
  py_split_aux sep [] s.data

/-- Python `s.lower()`: character-wise lower-casing. -/
def py_lower (s : String) : String :=
  String.mk (s.data.map Char.toLower)

/-- The request path split on `/` with the empty segments filtered out
(`filter(lambda x: x, path.split('/'))`), as in
`RequestContext._get_resource_path` and `RequestHandlerBase.__init__`. -/
def path_segments (path : String) : List String :=
  (py_split path '/').filter (fun s => !s.isEmpty)

/-- `RequestContext._get_resource_path` (context.py): split the request path
and drop the empty segments; `None` when no more than `root_path_position`
segments remain; otherwise `ret = parts[1:]`, returned as the single string
`ret[0]` when exactly one element remains and as the list otherwise. -/
def _get_resource_path (path : String) (root_path_position : Nat) :
    Option (String ⊕ List String) :=
  let parts := path_segments path
  if parts.length ≤ root_path_position then none
  else
    let ret := parts.drop 1
    if ret.length = 1 then some (Sum.inl (ret.headD "")) else some (Sum.inr ret)

/-- `RequestHandlerBase.__init__`: the root path position is the number of
non-empty segments of the endpoint's root URL. -/
def root_path_position_of (root_path : String) : Nat :=
  (path_segments root_path).length

/-- `RequestContext.require` (context.py): fetch a request argument and raise
`BadRequestError("missing required argument '<key>'")` when it is absent or
the empty string (`if not val or val == ''`). -/
def require (req : Request) (key : String) : Except RequestError String :=
  match req.args key with
  | none => .error (.badRequest ("missing required argument '" ++ key ++ "'"))
  | some val =>
    if val = "" then
      .error (.badRequest ("missing required argument '" ++ key ++ "'"))
    else .ok val

/-- `RequestContext.argument` (context.py): a request argument, or the default
when it is absent or the empty string. -/
def argument (req : Request) (key : String) (default_value : Option String) :
    Option String :=
  match req.args key with
  | none => default_value
  | some val => if val = "" then default_value else some val

/-- A JSON-serializable Python value, as the handler results the renderers
serialize. -/
inductive Json where
  | null
  | bool (b : Bool)
  | num (n : Int)
  | str (s : String)
  | arr (xs : List Json)
  | obj (fields : List (String × Json))

mutual

/-- Models the external `json.dumps` collaborator (django simplejson) up to
formatting: the source calls it with `indent = 4, sort_keys = True`, and the
claims compare bodies modulo whitespace, so the model renders compactly in the
given field order. -/
def json_dumps : Json → String
  | .null => "null"
  | .bool true => "true"
  | .bool false => "false"
  | .num n => toString n
  | .str s => "\"" ++ s ++ "\""
  | .arr xs => "[" ++ json_dumps_list xs ++ "]"
  | .obj fs => "\x7b" ++ json_dumps_fields fs ++ "\x7d"

/-- Comma-separated rendering of a JSON array's elements. -/
def json_dumps_list : List Json → String
  | [] => ""
  | [x] => json_dumps x
  | x :: xs => json_dumps x ++ ", " ++ json_dumps_list xs

/-- Comma-separated rendering of a JSON object's fields. -/
def json_dumps_fields : List (String × Json) → String
  | [] => ""
  | [(k, v)] => "\"" ++ k ++ "\": " ++ json_dumps v
  | (k, v) :: fs => "\"" ++ k ++ "\": " ++ json_dumps v ++ ", " ++ json_dumps_fields fs

end

/-- A handler's return value as the renderers receive it: a serializable
object, or a 2-element tuple whose first item is the serializable value
(`Endpoint.get` may return `(dict, aux)`). -/
inductive ResultObj where
  | single (j : Json)
  | tupled (fst : Json) (snd : Json)

/-- The `if isinstance(obj, tuple): obj = obj[0]` step of the JSON, JSONP and
HTML renderers. -/
def tuple_first : ResultObj → Json
  | .single j => j
  | .tupled j _ => j

/-- `Endpoint.alt_jsonp` (restapp/__init__.py): require the `callback`
argument, take the first item of a tuple result, set the script content type
and write `callback(<json>)`. -/
def alt_jsonp (req : Request) (obj : ResultObj) (r : Response) :
    Response × Except RequestError Unit :=
  match require req "callback" with
  | .error e => (r, .error e)
  | .ok callback_name =>
    let j := tuple_first obj
    let r1 := set_header r "Content-Type" "application/javascript"
    (write r1 (callback_name ++ "(" ++ json_dumps j ++ ")"), .ok ())

/-- `datetime(year = 1970, month = 1, day = 1)` as an epoch instant. -/
def epoch1970 : DateTime := { sec := 0, usec := 0 }

/-- `RequestContext.no_cache` (context.py): `Cache-Control: no-cache` and an
epoch `Expires` header. -/
def no_cache (r : Response) : Response :=
  set_header (set_header r "Cache-Control" "no-cache") "Expires"
    (format_http_time epoch1970)

/-- `RequestContext.handle_if_modified_since` (context.py): always emit the
`Last-Modified` header; when the request carries `If-Modified-Since` and its
parsed time is at least `last_modified` truncated to whole seconds, raise
`NotModifiedError`. -/
def handle_if_modified_since (req : Request) (last_modified : DateTime)
    (r : Response) : Response × Except RequestError Unit :=
  let r1 := set_header r "Last-Modified" (format_http_time last_modified)
  match req.ifModifiedSince with
  | none => (r1, .ok ())
  | some ims =>
    if DateTime.le last_modified.replaceMicrosecond0 (parse_http_time ims) then
      (r1, .error .notModified)
    else (r1, .ok ())

/-- `RequestContext.__init__` (context.py): the per-request value bundle, with
the fields the claims read. The response object is threaded separately as part
of the `World` state; `endpoint_file`, `endpoint_class` and the upload-only
aliases (`send_blob`, `get_uploads`) are omitted because no claim touches
them. -/
structure RequestContext (α : Type) where
  request : Request
  root_path_position : Nat
  root_path : String
  resource_path : Option (String ⊕ List String)
  auth_context : Option α

/-- `RequestHandlerBase._create_context` with `RequestContext.__init__`:
`resource_path` is derived once from the request path and the root depth, and
`auth_context` starts as `None`. -/
def create_context {α : Type} (req : Request) (root_path_position : Nat)
    (root_path : String) : RequestContext α :=
  { request := req
    root_path_position := root_path_position
    root_path := root_path
    resource_path := _get_resource_path req.path root_path_position
    auth_context := none }

/-- The per-request mutable state threaded through a handler: the response
object and the log stream (`logging.info` / `logging.error` entries, in
order). -/
structure World where
  response : Response
  logs : List String

/-- `traceback.format_exc()`: the full diagnostic trace, opaque in the
model. -/
def traceback_format_exc : String := "traceback"

/-- The `Endpoint` base-class surface the dispatcher uses
(restapp/__init__.py). An operation the implementor did not override is
`none` — the base method raises `NotImplementedError`, which the GET/POST
dispatchers catch — and `alt_methods` models the
`getattr(self.endpoint, prefixed_name, None)` dynamic renderer lookup. -/
structure Endpoint (α : Type) where
  root_url : Option String
  query? : Option (RequestContext α → World → World × Except Failure ResultObj)
  get? : Option (RequestContext α → World → World × Except Failure ResultObj)
  post? : Option (RequestContext α → World → World × Except Failure String)
  upload? : Option (RequestContext α → World → World × Except Failure String)
  authenticate_request : RequestContext α → World → World × Except Failure (Option α)
  alt_methods :
    String → Option (RequestContext α → ResultObj → World → World × Except Failure Unit)

/-- The `except errors.RequestError` clause of
`RequestHandlerBase.with_error_handling` (_handlers.py), applied to the state
at the moment the failure was raised: log the one-line summary, log the full
trace when the status is 500, clear the response, disable caching, set the
error's status and write the error's body. A non-domain exception is not
caught and propagates to the hosting runtime. -/
def handle_failure (f : Failure) (w : World) : World × Except Failure Unit :=
  match f with
  | .pyExc kind msg => (w, .error (.pyExc kind msg))
  | .domain e =>
    let w1 := { w with
      logs := w.logs ++ ["INFO: HTTP response (" ++ toString e.code ++ "): " ++ e.body] }
    let w2 :=
      if e.code = 500 then
        { w1 with logs := w1.logs ++ ["ERROR: " ++ traceback_format_exc] }
      else w1
    let r := response_clear w2.response
    let r := no_cache r
    let r := handler_error r e.code
    let r := write r e.body
    ({ w2 with response := r }, .ok ())

/-- The assignment `ctx.auth_context = auth_ctx` of
`RequestHandlerBase.with_error_handling`. -/
def set_auth_context {α : Type} (ctx : RequestContext α) (a : Option α) :
    RequestContext α :=
  { ctx with auth_context := a }

/-- The tail of the `try` block of `with_error_handling` around `code(ctx)`:
a normal return passes the state through, a raised failure reaches the
`except` clause. -/
def finish_body (res : World × Except Failure Unit) : World × Except Failure Unit :=
  match res with
  | (w2, .ok _) => (w2, .ok ())
  | (w2, .error f) => handle_failure f w2

/-- `RequestHandlerBase.with_error_handling(code)` (_handlers.py): build the
request context, run the authentication hook, store its result into the
context's `auth_context` slot, then run `code`; a raised domain error is
converted to an error response by the `except` clause (`handle_failure`). -/
def with_error_handling {α : Type} (ep : Endpoint α) (root_path : String)
    (root_path_position : Nat)
    (code : RequestContext α → World → World × Except Failure Unit)
    (req : Request) (w : World) : World × Except Failure Unit :=
  let ctx := create_context req root_path_position root_path
  match ep.authenticate_request ctx w with
  | (w1, .error f) => handle_failure f w1
  | (w1, .ok auth_ctx) => finish_body (code (set_auth_context ctx auth_ctx) w1)

/-- The response shape the error pipeline must produce for a domain error
`e`: the error handled (nothing propagates), the body exactly the error's
body text, the status the error's code, caching disabled, the one-line
summary logged, and the diagnostic trace logged when the status is 500. -/
def error_response_ok (result : World × Except Failure Unit) (e : RequestError) : Prop :=
  result.2 = .ok () ∧
    result.1.response.out = e.body ∧
    result.1.response.status = e.code ∧
    result.1.response.headers "Cache-Control" = some "no-cache" ∧
    result.1.response.headers "Expires" = some (format_http_time epoch1970) ∧
    ("INFO: HTTP response (" ++ toString e.code ++ "): " ++ e.body) ∈ result.1.logs ∧
    (e.code = 500 → ("ERROR: " ++ traceback_format_exc) ∈ result.1.logs)

/-- Python truthiness of the resolved resource path
(`if not ctx.resource_path`): `None`, the empty string and the empty list are
falsy. -/
def resource_path_truthy : Option (String ⊕ List String) → Bool
  | none => false
  | some (.inl s) => !s.isEmpty
  | some (.inr l) => !l.isEmpty

/-- `RequestHandler._invoke_alt_method` (_handlers.py): look up the renderer
named `method_name_head + alt.lower()` on the endpoint; when it is absent,
write a 400 response naming the unsupported format (without raising); when it
is present, invoke that renderer with the handler's result. -/
def _invoke_alt_method {α : Type} (ep : Endpoint α) (alt : String)
    (ctx : RequestContext α) (obj : ResultObj) (method_name_head : String)
    (w : World) : World × Except Failure Unit :=
  match ep.alt_methods (method_name_head ++ py_lower alt) with
  | none =>
    let r := write (handler_error w.response 400)
      ("unable to represent resource in format: " ++ alt)
    ({ w with response := r }, .ok ())
  | some alt_method => alt_method ctx obj w

/-- The body of `RequestHandler.get` (`safe_get` in _handlers.py): a falsy
resource path selects `query` (renderer names prefixed `alt_query_`), a truthy
one selects `get` (names prefixed `alt_`); an unimplemented operation raises
`BadRequestError`; after the operation, the representation named by the `alt`
argument (the handler's default when absent) is invoked on the result. -/
def safe_get {α : Type} (ep : Endpoint α) (default_alt : String)
    (ctx : RequestContext α) (w : World) : World × Except Failure Unit :=
  if resource_path_truthy ctx.resource_path = false then
    match ep.query? with
    | none =>
      (w, .error (.domain (.badRequest "GET is not supported for this endpoint")))
    | some query =>
      match query ctx w with
      | (w1, .error f) => (w1, .error f)
      | (w1, .ok response_obj) =>
        _invoke_alt_method ep ((ctx.request.args "alt").getD default_alt) ctx
          response_obj "alt_query_" w1
  else
    match ep.get? with
    | none =>
      (w, .error (.domain (.badRequest "GET is not supported for this endpoint")))
    | some get =>
      match get ctx w with
      | (w1, .error f) => (w1, .error f)
      | (w1, .ok response_obj) =>
        _invoke_alt_method ep ((ctx.request.args "alt").getD default_alt) ctx
          response_obj "alt_" w1

/-- The body of `RequestHandler.post` (`safe_post` in _handlers.py): run
`post` and redirect to `'%s/%s?alt=json' % (root_path, new_resource)`; an
unimplemented `post` writes a 400 response directly (no exception). -/
def safe_post {α : Type} (ep : Endpoint α) (root_path : String)
    (ctx : RequestContext α) (w : World) : World × Except Failure Unit :=
  match ep.post? with
  | none =>
    let r := write (handler_error w.response 400) "POST is not supported for this endpoint"
    ({ w with response := r }, .ok ())
  | some post =>
    match post ctx w with
    | (w1, .error f) => (w1, .error f)
    | (w1, .ok new_resource) =>
      ({ w1 with
          response :=
            redirect w1.response (root_path ++ "/" ++ new_resource ++ "?alt=json") },
        .ok ())

/-- `Endpoint.get_root_url` (restapp/__init__.py): the endpoint's `root_url`
class attribute; raises a plain (non-domain) `Exception` when it is undefined,
`None` or empty. -/
def get_root_url (root_url : Option String) : Except Failure String :=
  match root_url with
  | none =>
    .error (.pyExc "Exception" "root_url must be defined as an attribute of class")
  | some r =>
    if r = "" then
      .error (.pyExc "Exception" "root_url must be defined as an attribute of class")
    else .ok r

/-- Python string concatenation whose right operand may be `None`
(`'__upload' + query` in `RequestContext.upload_url`): concatenating `str` and
`None` raises `TypeError`. -/
def py_str_add (a : String) (b : Option String) : Except Failure String :=
  match b with
  | none => .error (.pyExc "TypeError" "cannot concatenate str and NoneType objects")
  | some s => .ok (a ++ s)

/-- `Endpoint.construct_relative_url(resource_path, alt)`
(restapp/__init__.py): `root_url + '/' + resource_path`, with `?alt=<alt>`
appended when `alt` is truthy. -/
def construct_relative_url (root_url : Option String) (resource_path : String)
    (alt : Option String) : Except Failure String :=
  match get_root_url root_url with
  | .error f => .error f
  | .ok root =>
    let alt_tail :=
      match alt with
      | none => ""
      | some alt_val => if alt_val = "" then "" else "?alt=" ++ alt_val
    .ok (root ++ "/" ++ resource_path ++ alt_tail)

/-- `RequestContext.upload_url(query)` (context.py): concatenate
`'__upload' + query` — a `TypeError` when `query` is `None`, its default
value — then build the endpoint-relative post-back URL and mint the upload URL
through the external `blobstore.create_upload_url` collaborator (`mint`); the
`logging.info` calls are omitted. -/
def upload_url (root_url : Option String) (mint : String → String)
    (query : Option String) : Except Failure String :=
  match py_str_add "__upload" query with
  | .error f => .error f
  | .ok with_query =>
    match construct_relative_url root_url with_query none with
    | .error f => .error f
    | .ok post_url => .ok (mint post_url)

/-- The body of `UploadRequestHandler.post` (`safe_post` in _handlers.py): run
`upload` and redirect to `construct_relative_url(relative_url)` (no `alt`
parameter). An unimplemented `upload` raises `NotImplementedError`, which this
route does not catch. -/
def upload_safe_post {α : Type} (ep : Endpoint α) (ctx : RequestContext α)
    (w : World) : World × Except Failure Unit :=
  match ep.upload? with
  | none => (w, .error (.pyExc "NotImplementedError" ""))
  | some upload =>
    match upload ctx w with
    | (w1, .error f) => (w1, .error f)
    | (w1, .ok relative_url) =>
      match construct_relative_url ep.root_url relative_url none with
      | .error f => (w1, .error f)
      | .ok uri => ({ w1 with response := redirect w1.response uri }, .ok ())

/-- The body of `UploadRequestHandler.get` (`safe_get` in _handlers.py):
always raises `BadRequestError`. -/
def upload_safe_get {α : Type} (_ctx : RequestContext α) (w : World) :
    World × Except Failure Unit :=
  (w, .error (.domain
    (.badRequest "GET is not supported for this special __upload endpoint")))

/-- `RequestHandler.get`: `safe_get` run under the error boundary. -/
def handler_get {α : Type} (ep : Endpoint α) (default_alt root_path : String)
    (pos : Nat) (req : Request) (w : World) : World × Except Failure Unit :=
  with_error_handling ep root_path pos (safe_get ep default_alt) req w

/-- `RequestHandler.post`: `safe_post` run under the error boundary. -/
def handler_post {α : Type} (ep : Endpoint α) (root_path : String) (pos : Nat)
    (req : Request) (w : World) : World × Except Failure Unit :=
  with_error_handling ep root_path pos (safe_post ep root_path) req w

/-- `UploadRequestHandler.post`: `upload_safe_post` run under the error
boundary. -/
def upload_handler_post {α : Type} (ep : Endpoint α) (root_path : String)
    (pos : Nat) (req : Request) (w : World) : World × Except Failure Unit :=
  with_error_handling ep root_path pos (upload_safe_post ep) req w

/-- `UploadRequestHandler.get`: the unconditional BadRequest run under the
error boundary. -/
def upload_handler_get {α : Type} (ep : Endpoint α) (root_path : String)
    (pos : Nat) (req : Request) (w : World) : World × Except Failure Unit :=
  with_error_handling ep root_path pos upload_safe_get req w

/-- A concrete request fixture used to evaluate the theorems. -/
def sampleRequest : Request :=
  { path := "/books/abc", args := fun _ => none, ifModifiedSince := none }

/-- A fresh response and log state used to evaluate the theorems. -/
def sampleWorld : World :=
  { response := { out := "", headers := fun _ => none, status := 200 }, logs := [] }

/-- A concrete endpoint fixture: authentication succeeds with auth context 7,
`get`, `post` and `upload` are implemented, `query` is not, and no renderer is
registered. -/
def sampleEndpoint : Endpoint Nat :=
  { root_url := some "/books"
    query? := none
    get? := some (fun _ w => (w, .ok (.single (.obj [("a", .num 1)]))))
    post? := some (fun _ w => (w, .ok "k1"))
    upload? := some (fun _ w => (w, .ok "u1"))
    authenticate_request := fun _ w => (w, .ok (some 7))
    alt_methods := fun _ => none }

/-- A dispatched body that raises an internal server error after running. -/
def sampleFailCode : RequestContext Nat → World → World × Except Failure Unit :=
  fun _ w => (w, .error (.domain (.internalServerError "boom")))

/-- A dispatched body that succeeds without output. -/
def sampleOkCode : RequestContext Nat → World → World × Except Failure Unit :=
  fun _ w => (w, .ok ())

/-- A concrete renderer fixture that writes a fixed body. -/
def sampleRenderer : RequestContext Nat → ResultObj → World → World × Except Failure Unit :=
  fun _ _ w => ({ w with response := write w.response "rendered" }, .ok ())

/-- An endpoint fixture with exactly one registered renderer, `alt_json`. -/
def sampleRenderEndpoint : Endpoint Nat :=
  { root_url := some "/books"
    query? := none
    get? := some (fun _ w => (w, .ok (.single (.obj [("a", .num 1)]))))
    post? := none
    upload? := none
    authenticate_request := fun _ w => (w, .ok none)
    alt_methods := fun n => if n = "alt_json" then some sampleRenderer else none }

/-- An endpoint fixture that implements no operation at all (all base-class
defaults) and performs no authentication. -/
def sampleBareEndpoint : Endpoint Nat :=
  { root_url := some "/books"
    query? := none
    get? := none
    post? := none
    upload? := none
    authenticate_request := fun _ w => (w, .ok none)
    alt_methods := fun _ => none }

/-- The auth-context assignment leaves the resolved resource path unchanged. -/
theorem set_auth_context_resource_path {α : Type} (ctx : RequestContext α)
    (a : Option α) : (set_auth_context ctx a).resource_path = ctx.resource_path := rfl

/-- The context's resource path is the resolver's value on the request path. -/
theorem create_context_resource_path {α : Type} (req : Request) (pos : Nat)
    (root : String) :
    (create_context req pos root : RequestContext α).resource_path =
      _get_resource_path req.path pos := rfl

/-- Reduction of the error boundary when the authentication hook succeeds. -/
theorem with_error_handling_ok {α : Type} (ep : Endpoint α) (root_path : String)
    (pos : Nat) (code : RequestContext α → World → World × Except Failure Unit)
    (req : Request) (w w1 : World) (a : Option α)
    (hauth : ep.authenticate_request (create_context req pos root_path) w =
      (w1, .ok a)) :
    with_error_handling ep root_path pos code req w =
      finish_body (code (set_auth_context (create_context req pos root_path) a) w1) := by
  simp only [with_error_handling]
  rw [hauth]

/-- Reduction of the error boundary when the authentication hook fails. -/
theorem with_error_handling_err {α : Type} (ep : Endpoint α) (root_path : String)
    (pos : Nat) (code : RequestContext α → World → World × Except Failure Unit)
    (req : Request) (w w1 : World) (f : Failure)
    (hauth : ep.authenticate_request (create_context req pos root_path) w =
      (w1, .error f)) :
    with_error_handling ep root_path pos code req w = handle_failure f w1 := by
  simp only [with_error_handling]
  rw [hauth]

/-- The except clause produces exactly the error-response shape of
`error_response_ok`, whatever response content and logs came before. -/
theorem handle_failure_domain_ok (e : RequestError) (w : World) :
    error_response_ok (handle_failure (.domain e) w) e := by
  unfold handle_failure error_response_ok
  by_cases h : e.code = 500 <;>
    simp [h, response_clear, no_cache, handler_error, write, set_header]

/-- C3: for every request path whose count of non-empty segments (duplicate
slashes filtered out) is at most the configured root depth, the resolver
returns `None` — and conversely it returns a value whenever more segments
remain. The resolver is a plain Lean function of the path and the depth, so it
is deterministic, total and side-effect-free by construction. -/
theorem c3_resolver_none_iff (path : String) (root_depth : Nat) :
    _get_resource_path path root_depth = none ↔
      (path_segments path).length ≤ root_depth := by
  unfold _get_resource_path
  by_cases h : (path_segments path).length ≤ root_depth
  · simp [h]
  · simp only [if_neg h]
    constructor
    · intro hc
      by_cases h1 : ((path_segments path).drop 1).length = 1
      · rw [if_pos h1] at hc; exact absurd hc (by simp)
      · rw [if_neg h1] at hc; exact absurd hc (by simp)
    · intro hc; exact absurd hc h

/-- Witness for C3 at a concrete input: the path `/books` has one non-empty
segment, so with root depth 1 the resolver returns `None`. -/
theorem c3_resolver_none_iff_witness :
    _get_resource_path "/books" 1 = none ↔ (path_segments "/books").length ≤ 1 :=
  c3_resolver_none_iff "/books" 1

/-- C1 (evidence of the divergence): with a two-segment root
(`root_path_position = 2`, e.g. root URL `/api/user`) and request path
`/api/user/abc`, the resolver returns the pair `["user", "abc"]` — the
source computes `ret = parts[1:]`, dropping exactly one leading segment
regardless of the root depth — and not the single trailing segment `"abc"`
strictly after the root prefix that the claim (and the docstring of
`_get_resource_path` itself: the entire path after the endpoint root)
describe. -/
theorem c1_resolver_drops_only_first_segment :
    _get_resource_path "/api/user/abc" 2 = some (Sum.inr ["user", "abc"]) ∧
      _get_resource_path "/api/user/abc" 2 ≠ some (Sum.inl "abc") := by
  refine ⟨by decide, by decide⟩

/-- C6: `handle_if_modified_since(lastModified)` always sets the
`Last-Modified` response header; when the request carries an
`If-Modified-Since` header it raises the NotModified short-circuit signal
(status 304, empty body) exactly when the header's parsed time is greater than
or equal to `lastModified` truncated to whole seconds, and otherwise returns
normally. -/
theorem c6_if_modified_since (req : Request) (lm : DateTime) (r : Response) :
    (handle_if_modified_since req lm r).1.headers "Last-Modified" =
        some (format_http_time lm) ∧
      (∀ s, req.ifModifiedSince = some s →
        (((handle_if_modified_since req lm r).2 = .error .notModified ↔
            DateTime.le lm.replaceMicrosecond0 (parse_http_time s) = true) ∧
          (DateTime.le lm.replaceMicrosecond0 (parse_http_time s) = false →
            (handle_if_modified_since req lm r).2 = .ok ()))) ∧
      RequestError.code .notModified = 304 ∧
      RequestError.body .notModified = "" := by
  refine ⟨?_, ?_, rfl, rfl⟩
  · unfold handle_if_modified_since
    cases h : req.ifModifiedSince with
    | none => simp [set_header]
    | some s =>
      by_cases hle : DateTime.le lm.replaceMicrosecond0 (parse_http_time s) = true
      · simp [hle, set_header]
      · simp only [hle, if_false, Bool.not_eq_true] at *
        simp [hle, set_header]
  · intro s hs
    unfold handle_if_modified_since
    rw [hs]
    by_cases hle : DateTime.le lm.replaceMicrosecond0 (parse_http_time s) = true
    · simp [hle]
    · simp only [Bool.not_eq_true] at hle
      simp [hle]

/-- Witness for C6 at a concrete input: last-modified instant 100s + 500000µs,
request header denoting instant 100s; the truncated last-modified time is
100s ≤ 100s, so the conditional GET short-circuits with NotModified. -/
theorem c6_if_modified_since_witness :
    (handle_if_modified_since
          { path := "/books/abc", args := fun _ => none, ifModifiedSince := some 100 }
          { sec := 100, usec := 500000 }
          { out := "", headers := fun _ => none, status := 200 }).1.headers
        "Last-Modified" = some (format_http_time { sec := 100, usec := 500000 }) ∧
      (handle_if_modified_since
          { path := "/books/abc", args := fun _ => none, ifModifiedSince := some 100 }
          { sec := 100, usec := 500000 }
          { out := "", headers := fun _ => none, status := 200 }).2 =
        .error .notModified := by
  have h := c6_if_modified_since
    { path := "/books/abc", args := fun _ => none, ifModifiedSince := some 100 }
    { sec := 100, usec := 500000 }
    { out := "", headers := fun _ => none, status := 200 }
  exact ⟨h.1, ((h.2.1 100 rfl).1).mpr (by decide)⟩

/-- C7: the JSONP renderer raises BadRequest when the `callback` argument is
absent or empty; otherwise, with `callback = cb` and handler result `obj`
(first element taken when `obj` is a 2-element tuple), it appends to the body
exactly `cb(<JSON serialization of obj>)` with a JavaScript content type. -/
theorem c7_jsonp (req : Request) (obj : ResultObj) (r : Response) :
    ((req.args "callback" = none ∨ req.args "callback" = some "") →
        alt_jsonp req obj r =
          (r, .error (.badRequest "missing required argument 'callback'"))) ∧
      (∀ cb, req.args "callback" = some cb → cb ≠ "" →
        (alt_jsonp req obj r).2 = .ok () ∧
          (alt_jsonp req obj r).1.out =
            r.out ++ (cb ++ "(" ++ json_dumps (tuple_first obj) ++ ")") ∧
          (alt_jsonp req obj r).1.headers "Content-Type" =
            some "application/javascript") ∧
      (∀ a b, tuple_first (.tupled a b) = a) := by
  refine ⟨?_, ?_, fun a b => rfl⟩
  · intro h
    unfold alt_jsonp require
    rcases h with h | h <;> simp [h]
  · intro cb hcb hne
    unfold alt_jsonp require
    rw [hcb]
    simp [hne, write, set_header]

/-- Witness for C7 at concrete inputs: with `callback=cb` and result
`{"a": 1}` the body is exactly `cb({"a": 1})`, and with no `callback` the
renderer fails with BadRequest. -/
theorem c7_jsonp_witness :
    (alt_jsonp
          { path := "/books", args := fun k => if k = "callback" then some "cb" else none,
            ifModifiedSince := none }
          (.single (.obj [("a", .num 1)]))
          { out := "", headers := fun _ => none, status := 200 }).1.out =
        "" ++ ("cb" ++ "(" ++ json_dumps (tuple_first (.single (.obj [("a", .num 1)]))) ++ ")") ∧
      alt_jsonp
          { path := "/books", args := fun _ => none, ifModifiedSince := none }
          (.single (.obj [("a", .num 1)]))
          { out := "", headers := fun _ => none, status := 200 } =
        ({ out := "", headers := fun _ => none, status := 200 },
          .error (.badRequest "missing required argument 'callback'")) := by
  constructor
  · exact ((c7_jsonp
      { path := "/books", args := fun k => if k = "callback" then some "cb" else none,
        ifModifiedSince := none }
      (.single (.obj [("a", .num 1)]))
      { out := "", headers := fun _ => none, status := 200 }).2.1 "cb" (by simp) (by decide)).2.1
  · exact (c7_jsonp
      { path := "/books", args := fun _ => none, ifModifiedSince := none }
      (.single (.obj [("a", .num 1)]))
      { out := "", headers := fun _ => none, status := 200 }).1 (Or.inl rfl)

/-- C2: whenever the per-request flow raises a domain error — from the
authentication hook or from the dispatched body — the error pipeline clears
any response content already written, disables caching on the error response
(`Cache-Control: no-cache` with an epoch `Expires`), sets the status code
carried by the error and writes the error's body text as the entire response
body; a 500-class error additionally logs the full diagnostic trace, and every
error logs a one-line summary. -/
theorem c2_error_pipeline {α : Type} (ep : Endpoint α) (root_path : String)
    (pos : Nat) (code : RequestContext α → World → World × Except Failure Unit)
    (req : Request) (w : World) (e : RequestError) :
    (∀ w1,
        ep.authenticate_request (create_context req pos root_path) w =
          (w1, .error (.domain e)) →
        error_response_ok (with_error_handling ep root_path pos code req w) e) ∧
      (∀ w1 a w2,
        ep.authenticate_request (create_context req pos root_path) w = (w1, .ok a) →
        code (set_auth_context (create_context req pos root_path) a) w1 =
          (w2, .error (.domain e)) →
        error_response_ok (with_error_handling ep root_path pos code req w) e) := by
  constructor
  · intro w1 h
    simp only [with_error_handling]
    rw [h]
    exact handle_failure_domain_ok e w1
  · intro w1 a w2 h1 h2
    simp only [with_error_handling]
    rw [h1]
    show error_response_ok
      (finish_body (code (set_auth_context (create_context req pos root_path) a) w1)) e
    rw [h2]
    exact handle_failure_domain_ok e w2

/-- Witness for C2 at a concrete input: a body raising
InternalServerError("boom") under the sample endpoint yields the full
error-response shape (status 500, body "boom", no-cache, trace logged). -/
theorem c2_error_pipeline_witness :
    error_response_ok
      (with_error_handling sampleEndpoint "/books" 1 sampleFailCode sampleRequest
        sampleWorld)
      (.internalServerError "boom") :=
  (c2_error_pipeline sampleEndpoint "/books" 1 sampleFailCode sampleRequest sampleWorld
      (.internalServerError "boom")).2 sampleWorld (some 7) sampleWorld rfl rfl

/-- C4: on every route handled through `with_error_handling`, the context's
`auth_context` slot is initially absent; when the authentication hook fails
(e.g. raises Unauthorized) the outcome is independent of the dispatched body —
the selected operation is never invoked, so it produces no partial side
effects — and equals the error-pipeline result of the hook's failure; when the
hook succeeds the dispatched body receives the context whose `auth_context`
slot holds exactly the hook's result, set once before the operation runs. -/
theorem c4_auth_before_op {α : Type} (ep : Endpoint α) (root_path : String)
    (pos : Nat) (req : Request) (w : World) :
    (create_context req pos root_path : RequestContext α).auth_context = none ∧
      (∀ w1 f,
        ep.authenticate_request (create_context req pos root_path) w = (w1, .error f) →
        ∀ code code2 : RequestContext α → World → World × Except Failure Unit,
          with_error_handling ep root_path pos code req w =
              with_error_handling ep root_path pos code2 req w ∧
            with_error_handling ep root_path pos code req w = handle_failure f w1) ∧
      (∀ w1 a,
        ep.authenticate_request (create_context req pos root_path) w = (w1, .ok a) →
        ∀ code : RequestContext α → World → World × Except Failure Unit,
          with_error_handling ep root_path pos code req w =
            finish_body
              (code (set_auth_context (create_context req pos root_path) a) w1)) := by
  refine ⟨rfl, ?_, ?_⟩
  · intro w1 f h code code2
    constructor
    · simp only [with_error_handling]
      rw [h]
    · simp only [with_error_handling]
      rw [h]
  · intro w1 a h code
    simp only [with_error_handling]
    rw [h]

/-- Witness for C4 at a concrete input: the sample context starts with no auth
context, and under the sample endpoint (auth result 7) the dispatched body
runs on the context carrying exactly that result. -/
theorem c4_auth_before_op_witness :
    (create_context sampleRequest 1 "/books" : RequestContext Nat).auth_context = none ∧
      with_error_handling sampleEndpoint "/books" 1 sampleOkCode sampleRequest
          sampleWorld =
        finish_body
          (sampleOkCode
            (set_auth_context (create_context sampleRequest 1 "/books") (some 7))
            sampleWorld) :=
  ⟨(c4_auth_before_op sampleEndpoint "/books" 1 sampleRequest sampleWorld).1,
    (c4_auth_before_op sampleEndpoint "/books" 1 sampleRequest sampleWorld).2.2
      sampleWorld (some 7) rfl sampleOkCode⟩

/-- C9: for every request that reaches rendering, exactly one renderer
executes: the negotiator looks up the method named
`prefix + representation.lower()` on the endpoint; when it is absent it writes
a 400 response whose body names the unsupported representation and raises
nothing; when it is present, the overall result is exactly that of running
that renderer alone on the handler's result. -/
theorem c9_negotiator {α : Type} (ep : Endpoint α) (alt : String)
    (ctx : RequestContext α) (obj : ResultObj) (pfx : String) (w : World) :
    (ep.alt_methods (pfx ++ py_lower alt) = none →
        (_invoke_alt_method ep alt ctx obj pfx w).2 = .ok () ∧
          (_invoke_alt_method ep alt ctx obj pfx w).1.response.status = 400 ∧
          (_invoke_alt_method ep alt ctx obj pfx w).1.response.out =
            "unable to represent resource in format: " ++ alt) ∧
      (∀ m, ep.alt_methods (pfx ++ py_lower alt) = some m →
        _invoke_alt_method ep alt ctx obj pfx w = m ctx obj w) := by
  constructor
  · intro h
    unfold _invoke_alt_method
    rw [h]
    refine ⟨rfl, rfl, ?_⟩
    simp [write, handler_error, response_clear]
  · intro m h
    unfold _invoke_alt_method
    rw [h]

/-- Witness for C9 at concrete inputs: looking up `alt_json` on the fixture
endpoint runs exactly that renderer, and looking up `alt_xml` (absent) yields
a 400 naming the format. -/
theorem c9_negotiator_witness :
    _invoke_alt_method sampleRenderEndpoint "json"
        (create_context sampleRequest 1 "/books") (.single .null) "alt_" sampleWorld =
      sampleRenderer (create_context sampleRequest 1 "/books") (.single .null)
        sampleWorld ∧
      (_invoke_alt_method sampleRenderEndpoint "xml"
          (create_context sampleRequest 1 "/books") (.single .null) "alt_"
          sampleWorld).1.response.out =
        "unable to represent resource in format: " ++ "xml" := by
  constructor
  · refine (c9_negotiator sampleRenderEndpoint "json"
      (create_context sampleRequest 1 "/books") (.single .null) "alt_" sampleWorld).2
      sampleRenderer ?_
    have hname : ("alt_" ++ py_lower "json") = "alt_json" := by decide
    rw [hname]
    simp [sampleRenderEndpoint]
  · refine ((c9_negotiator sampleRenderEndpoint "xml"
      (create_context sampleRequest 1 "/books") (.single .null) "alt_" sampleWorld).1
      ?_).2.2
    have hname : ("alt_" ++ py_lower "xml") = "alt_xml" := by decide
    rw [hname]
    simp [sampleRenderEndpoint]

/-- C5: for every GET or POST request whose selected operation (query for a
collection GET, get for a single-resource GET, post for POST) is not
implemented by the endpoint, the response is a 400 reporting the operation as
not supported, handled inside the error boundary — never an internal fault or
a 500-class error. -/
theorem c5_unimplemented_operation_400 {α : Type} (ep : Endpoint α)
    (default_alt root_path : String) (pos : Nat) (req : Request)
    (w w1 : World) (a : Option α)
    (hauth : ep.authenticate_request (create_context req pos root_path) w =
      (w1, .ok a)) :
    (resource_path_truthy (_get_resource_path req.path pos) = false →
        ep.query? = none →
        (handler_get ep default_alt root_path pos req w).2 = .ok () ∧
          (handler_get ep default_alt root_path pos req w).1.response.status = 400 ∧
          (handler_get ep default_alt root_path pos req w).1.response.out =
            "GET is not supported for this endpoint") ∧
      (resource_path_truthy (_get_resource_path req.path pos) = true →
        ep.get? = none →
        (handler_get ep default_alt root_path pos req w).2 = .ok () ∧
          (handler_get ep default_alt root_path pos req w).1.response.status = 400 ∧
          (handler_get ep default_alt root_path pos req w).1.response.out =
            "GET is not supported for this endpoint") ∧
      (ep.post? = none →
        (handler_post ep root_path pos req w).2 = .ok () ∧
          (handler_post ep root_path pos req w).1.response.status = 400 ∧
          (handler_post ep root_path pos req w).1.response.out =
            "POST is not supported for this endpoint") := by
  refine ⟨?_, ?_, ?_⟩
  · intro hpath hop
    unfold handler_get
    rw [with_error_handling_ok ep root_path pos (safe_get ep default_alt) req w w1 a
      hauth]
    unfold safe_get
    rw [set_auth_context_resource_path, create_context_resource_path, hpath]
    simp only [eq_self_iff_true, if_true, hop, finish_body]
    have h := handle_failure_domain_ok
      (.badRequest "GET is not supported for this endpoint") w1
    exact ⟨h.1, h.2.2.1, h.2.1⟩
  · intro hpath hop
    unfold handler_get
    rw [with_error_handling_ok ep root_path pos (safe_get ep default_alt) req w w1 a
      hauth]
    unfold safe_get
    rw [set_auth_context_resource_path, create_context_resource_path, hpath]
    simp only [Bool.true_eq_false, if_false, hop, finish_body]
    have h := handle_failure_domain_ok
      (.badRequest "GET is not supported for this endpoint") w1
    exact ⟨h.1, h.2.2.1, h.2.1⟩
  · intro hop
    unfold handler_post
    rw [with_error_handling_ok ep root_path pos (safe_post ep root_path) req w w1 a
      hauth]
    unfold safe_post
    simp [hop, finish_body, write, handler_error, response_clear]

/-- Witness for C5 at concrete inputs: on the bare endpoint, a GET to
`/books/abc` (unimplemented `get`) and a POST (unimplemented `post`) both
produce 400 with the "not supported" body. -/
theorem c5_unimplemented_operation_400_witness :
    ((handler_get sampleBareEndpoint "html" "/books" 1 sampleRequest
          sampleWorld).1.response.status = 400 ∧
        (handler_get sampleBareEndpoint "html" "/books" 1 sampleRequest
            sampleWorld).1.response.out = "GET is not supported for this endpoint") ∧
      ((handler_post sampleBareEndpoint "/books" 1 sampleRequest
            sampleWorld).1.response.status = 400 ∧
        (handler_post sampleBareEndpoint "/books" 1 sampleRequest
            sampleWorld).1.response.out = "POST is not supported for this endpoint") := by
  have h := c5_unimplemented_operation_400 sampleBareEndpoint "html" "/books" 1
    sampleRequest sampleWorld sampleWorld none rfl
  exact ⟨⟨(h.2.1 (by decide) rfl).2.1, (h.2.1 (by decide) rfl).2.2⟩,
    ⟨(h.2.2 rfl).2.1, (h.2.2 rfl).2.2⟩⟩

/-- C8: a successful `post` operation returning identifier `id` makes the
dispatcher redirect to `<root>/<id>?alt=json`, and a successful `upload`
operation returning identifier `id` makes the upload sub-route redirect to
`<root>/<id>` with no `alt` query parameter. -/
theorem c8_redirect_contract {α : Type} (ep : Endpoint α) (root_path : String)
    (pos : Nat) (req : Request) (w w1 : World) (a : Option α)
    (hauth : ep.authenticate_request (create_context req pos root_path) w =
      (w1, .ok a)) :
    (∀ post new_id w2, ep.post? = some post →
        post (set_auth_context (create_context req pos root_path) a) w1 =
          (w2, .ok new_id) →
        (handler_post ep root_path pos req w).2 = .ok () ∧
          (handler_post ep root_path pos req w).1.response.status = 302 ∧
          (handler_post ep root_path pos req w).1.response.headers "Location" =
            some (root_path ++ "/" ++ new_id ++ "?alt=json")) ∧
      (∀ upload rid w2 root, ep.upload? = some upload →
        upload (set_auth_context (create_context req pos root_path) a) w1 =
          (w2, .ok rid) →
        ep.root_url = some root → root ≠ "" →
        (upload_handler_post ep root_path pos req w).2 = .ok () ∧
          (upload_handler_post ep root_path pos req w).1.response.status = 302 ∧
          (upload_handler_post ep root_path pos req w).1.response.headers "Location" =
            some (root ++ "/" ++ rid)) := by
  constructor
  · intro post new_id w2 hop hrun
    unfold handler_post
    rw [with_error_handling_ok ep root_path pos (safe_post ep root_path) req w w1 a
      hauth]
    unfold safe_post
    simp [hop, hrun, finish_body, redirect, set_header, response_clear]
  · intro upload rid w2 root hop hrun hroot hne
    unfold upload_handler_post
    rw [with_error_handling_ok ep root_path pos (upload_safe_post ep) req w w1 a
      hauth]
    unfold upload_safe_post construct_relative_url get_root_url
    simp [hop, hrun, hroot, hne, finish_body, redirect, set_header, response_clear]

/-- Witness for C8 at concrete inputs: the sample endpoint's `post` returns
"k1" and redirects to `/books/k1?alt=json`; its `upload` returns "u1" and the
upload sub-route redirects to `/books/u1`. -/
theorem c8_redirect_contract_witness :
    ((handler_post sampleEndpoint "/books" 1 sampleRequest
          sampleWorld).1.response.headers "Location" =
        some ("/books" ++ "/" ++ "k1" ++ "?alt=json") ∧
        (handler_post sampleEndpoint "/books" 1 sampleRequest
            sampleWorld).1.response.status = 302) ∧
      ((upload_handler_post sampleEndpoint "/books" 1 sampleRequest
            sampleWorld).1.response.headers "Location" =
          some ("/books" ++ "/" ++ "u1") ∧
        (upload_handler_post sampleEndpoint "/books" 1 sampleRequest
            sampleWorld).1.response.status = 302) := by
  have h := c8_redirect_contract sampleEndpoint "/books" 1 sampleRequest
    sampleWorld sampleWorld (some 7) rfl
  have hp := h.1 (fun _ w => (w, .ok "k1")) "k1" sampleWorld rfl rfl
  have hu := h.2 (fun _ w => (w, .ok "u1")) "u1" sampleWorld "/books" rfl rfl rfl
    (by decide)
  exact ⟨⟨hp.2.2, hp.2.1⟩, ⟨hu.2.2, hu.2.1⟩⟩

/-- C10: calling `upload_url` with its default argument (`query = None`)
always raises a `TypeError` from `'__upload' + None`; a `TypeError` is not a
domain error, so it escapes `with_error_handling` unhandled instead of
producing a mapped error response; and every call that passes a string query
(the empty string included, given a well-formed root) returns the minted
URL. -/
theorem c10_upload_url_default_type_error (root_url : Option String)
    (mint : String → String) :
    upload_url root_url mint none =
        .error (.pyExc "TypeError" "cannot concatenate str and NoneType objects") ∧
      (∀ (α : Type) (ep : Endpoint α) (root_path : String) (pos : Nat)
          (code : RequestContext α → World → World × Except Failure Unit)
          (req : Request) (w w1 w2 : World) (a : Option α) (kind msg : String),
        ep.authenticate_request (create_context req pos root_path) w = (w1, .ok a) →
        code (set_auth_context (create_context req pos root_path) a) w1 =
          (w2, .error (.pyExc kind msg)) →
        with_error_handling ep root_path pos code req w =
          (w2, .error (.pyExc kind msg))) ∧
      (∀ q root, root_url = some root → root ≠ "" →
        upload_url root_url mint (some q) =
          .ok (mint (root ++ "/" ++ ("__upload" ++ q)))) := by
  refine ⟨rfl, ?_, ?_⟩
  · intro α ep root_path pos code req w w1 w2 a kind msg hauth hrun
    rw [with_error_handling_ok ep root_path pos code req w w1 a hauth, hrun]
    rfl
  · intro q root hroot hne
    unfold upload_url py_str_add construct_relative_url get_root_url
    simp only [hroot, hne, if_false]
    simp

/-- Witness for C10 at concrete inputs: on the sample endpoint root `/books`,
`upload_url` with the default argument raises the `TypeError`, a body raising
it escapes the pipeline unhandled, and passing the empty string query yields
the minted URL for `/books/__upload`. -/
theorem c10_upload_url_default_type_error_witness :
    upload_url (some "/books") (fun u => "minted:" ++ u) none =
        .error (.pyExc "TypeError" "cannot concatenate str and NoneType objects") ∧
      with_error_handling sampleEndpoint "/books" 1
          (fun _ w => (w, .error (.pyExc "TypeError" "boom"))) sampleRequest
          sampleWorld =
        (sampleWorld, .error (.pyExc "TypeError" "boom")) ∧
      upload_url (some "/books") (fun u => "minted:" ++ u) (some "") =
        .ok ("minted:" ++ ("/books" ++ "/" ++ ("__upload" ++ ""))) := by
  have h := c10_upload_url_default_type_error (some "/books") (fun u => "minted:" ++ u)
  exact ⟨h.1,
    h.2.1 Nat sampleEndpoint "/books" 1
      (fun _ w => (w, .error (.pyExc "TypeError" "boom"))) sampleRequest
      sampleWorld sampleWorld sampleWorld (some 7) "TypeError" "boom" rfl rfl,
    h.2.2 "" "/books" rfl (by decide)⟩

end Restapp
